import Mathlib

/-!
Shallow embedding of `src/app/users/[id]/page.tsx` (the `UserProfilePage`
React component): its data model, the two fetch operations started by the
mount effect, and the pure render function, together with proofs of the
specified properties of the fetch-and-render flow.

Conventions of the embedding:
* TypeScript `string` is `String`, `number` (used only for integral ids)
  is `Int`, `T | null` is `Option T`.
* A thrown JavaScript value is modelled by `Thrown`: either an `Error`
  instance carrying its `message` string, or any non-`Error` value (whose
  fields, if any, the component never reads).
* One run of `fetch` + `res.json()` is modelled by `FetchOutcome`:
  the awaited `fetch` call either rejects, or yields a response with an
  HTTP status; `res.json()` on that response either parses to a value or
  throws.  `res.ok` is true exactly for 2xx statuses.
* JSX truthiness and interpolation follow JavaScript: `undefined` and the
  empty string are falsy; `undefined` renders as empty text in a JSX
  child but stringifies to "undefined" inside a template literal.
* Each `async` fetch handler is one atomic state transition (React 18
  batches the `setState` calls of one handler), so the component's state
  evolution is: the initial `useState` values, transformed by the user
  fetch settling and the posts fetch settling, in either order.
-/

/-- `geo` field of the address: latitude/longitude as strings. -/
structure Geo where
  lat : String
  lng : String
deriving DecidableEq

/-- `Address` interface of the page. -/
structure Address where
  street : String
  suite : String
  city : String
  zipcode : String
  geo : Geo
deriving DecidableEq

/-- `Post` interface of the page. -/
structure Post where
  id : Int
  title : String
  body : String
deriving DecidableEq

/-- `User` interface of the page. -/
structure User where
  id : Int
  name : String
  username : String
  email : String
  phone : String
  website : String
  address : Address
deriving DecidableEq

/-- The six `useState` hooks of `UserProfilePage`, as one record. -/
structure ViewState where
  user : Option User
  posts : List Post
  loadingUser : Bool
  loadingPosts : Bool
  errorUser : Option String
  errorPosts : Option String
deriving DecidableEq

/-- The initial values passed to `useState`. -/
def initialState : ViewState :=
  { user := none
  , posts := []
  , loadingUser := true
  , loadingPosts := true
  , errorUser := none
  , errorPosts := none }

/-- A thrown JavaScript value, as the `catch (err: unknown)` blocks
distinguish it: an `Error` instance with its `message`, or anything
else (`err instanceof Error` false). -/
inductive Thrown where
  | errorObj (message : String)
  | otherValue
deriving DecidableEq

/-- What one `await fetch(...)` (plus `await res.json()`) can produce:
the fetch itself rejects with a thrown value, or it yields a response
with an HTTP `status`, whose `json()` either parses to a value of the
expected shape or throws. -/
inductive FetchOutcome (α : Type) where
  | reject (t : Thrown)
  | response (status : Nat) (body : Except Thrown α)

/-- `res.ok`: true iff the status is in the 2xx range. -/
def resOk (status : Nat) : Bool :=
  decide (200 ≤ status) && decide (status ≤ 299)

/-- The message stored by both `catch` blocks:
`err instanceof Error ? err.message : "An unknown error occurred"`. -/
def caughtMessage : Thrown → String
  | .errorObj m => m
  | .otherValue => "An unknown error occurred"

/-- `fetchUser` of the mount effect, as a state transition given the
outcome of its network call.  On a rejected fetch or a `json()` throw the
catch block stores the caught message in `errorUser`; on a non-ok status
it throws `new Error("Failed to fetch user")` before reading the body,
which the same catch block stores; on success it stores the parsed body
(`null` included) in `user`.  The `finally` block clears `loadingUser`
on every path. -/
def fetchUser (o : FetchOutcome (Option User)) (s : ViewState) : ViewState :=
  match o with
  | .reject t =>
      { s with errorUser := some (caughtMessage t), loadingUser := false }
  | .response status body =>
      if resOk status then
        match body with
        | .ok data => { s with user := data, loadingUser := false }
        | .error t =>
            { s with errorUser := some (caughtMessage t), loadingUser := false }
      else
        { s with errorUser := some "Failed to fetch user", loadingUser := false }

/-- `fetchPosts` of the mount effect, same shape as `fetchUser` but it
stores into `posts` / `errorPosts` / `loadingPosts` and its own throw on a
non-ok status is `new Error("Failed to fetch posts")`. -/
def fetchPosts (o : FetchOutcome (List Post)) (s : ViewState) : ViewState :=
  match o with
  | .reject t =>
      { s with errorPosts := some (caughtMessage t), loadingPosts := false }
  | .response status body =>
      if resOk status then
        match body with
        | .ok data => { s with posts := data, loadingPosts := false }
        | .error t =>
            { s with errorPosts := some (caughtMessage t), loadingPosts := false }
      else
        { s with errorPosts := some "Failed to fetch posts", loadingPosts := false }

/-- An outcome on which the `try` block throws (so the catch path runs and
the payload is never stored): a rejected fetch, a non-2xx status, or a
`json()` parse throw. -/
def outcomeFails : FetchOutcome α → Bool
  | .reject _ => true
  | .response status body =>
      !resOk status ||
        (match body with
         | .error _ => true
         | .ok _ => false)

/-- An HTTP request issued by the component, identified by its URL. -/
structure Request where
  url : String
deriving DecidableEq

/-- The user-endpoint request of `fetchUser`. -/
def userRequest (id : String) : Request :=
  ⟨"https://jsonplaceholder.typicode.com/users/" ++ id⟩

/-- The posts-endpoint request of `fetchPosts`. -/
def postsRequest (id : String) : Request :=
  ⟨"https://jsonplaceholder.typicode.com/posts?userId=" ++ id⟩

/-- The requests issued by one run of the mount effect: `if (!id) return;`
(the empty string is the only falsy string), then `fetchUser()` and
`fetchPosts()` each issue exactly one request. -/
def effectRequests (id : String) : List Request :=
  if id = "" then [] else [userRequest id, postsRequest id]

/-- One run of the mount effect as a state transition: nothing happens for
a falsy id; otherwise both fetches settle (they touch disjoint state, see
`fetchUser_fetchPosts_comm`, so the settling order is immaterial). -/
def runEffect (id : String) (ou : FetchOutcome (Option User))
    (op : FetchOutcome (List Post)) (s : ViewState) : ViewState :=
  if id = "" then s else fetchPosts op (fetchUser ou s)

/-- JSX rendering of a possibly-undefined string child: `undefined`
renders as empty text. -/
def jsStr (o : Option String) : String := o.getD ""

/-- JavaScript template-literal interpolation of a possibly-undefined
string: `undefined` stringifies to "undefined". -/
def jsInterp (o : Option String) : String := o.getD "undefined"

/-- JavaScript truthiness of a `string | null | undefined` value:
`null`/`undefined` and the empty string are falsy. -/
def jsTruthy : Option String → Bool
  | none => false
  | some s => s != ""

/-- The rendered profile card: display texts of the optional-chained
accesses `user?.name`, `user?.username`, ..., the two link targets built
by template literals, and the comma-joined address line. -/
structure Profile where
  name : String
  username : String
  email : String
  emailHref : String
  phone : String
  website : String
  websiteHref : String
  addressLine : String
deriving DecidableEq

/-- The map region: either the `<UserMap />` collaborator (which receives
no props) or the placeholder paragraph with its text. -/
inductive MapRegion where
  | userMap
  | placeholder (text : String)
deriving DecidableEq

/-- One rendered post card: the `Link` target, its text, and the body. -/
structure PostCard where
  href : String
  title : String
  body : String
deriving DecidableEq

/-- The posts section: its own spinner, its own error line, or the grid. -/
inductive PostsSection where
  | loading (label : String)
  | failed (message : String)
  | grid (cards : List PostCard)
deriving DecidableEq

/-- The whole rendered output of `UserProfilePage`: the early-returned
full-page spinner, the early-returned error line, or the composed page. -/
inductive Render where
  | loadingUser (label : String)
  | errorUser (message : String)
  | page (profile : Profile) (map : MapRegion) (posts : PostsSection)
deriving DecidableEq

/-- The profile card as a function of the (possibly null) user: every
access is an optional chain rooted at `user?.`, so a null user
short-circuits the whole chain to `undefined`. -/
def renderProfile (u : Option User) : Profile :=
  { name := jsStr (u.map (·.name))
  , username := jsStr (u.map (·.username))
  , email := jsStr (u.map (·.email))
  , emailHref := "mailto:" ++ jsInterp (u.map (·.email))
  , phone := jsStr (u.map (·.phone))
  , website := jsStr (u.map (·.website))
  , websiteHref := "http://" ++ jsInterp (u.map (·.website))
  , addressLine :=
      jsStr (u.map (·.address.street)) ++ ", " ++
      jsStr (u.map (·.address.suite)) ++ ", " ++
      jsStr (u.map (·.address.city)) ++ ", " ++
      jsStr (u.map (·.address.zipcode)) }

/-- The map region:
`user?.address.geo.lat && user?.address.geo.lng ? <UserMap /> : <p>...`. -/
def renderMap (u : Option User) : MapRegion :=
  if jsTruthy (u.map (·.address.geo.lat)) && jsTruthy (u.map (·.address.geo.lng))
  then .userMap
  else .placeholder "Map data not available"

/-- One `<li>` of the posts grid. -/
def renderPostCard (p : Post) : PostCard :=
  { href := "/posts/" ++ toString p.id, title := p.title, body := p.body }

/-- The posts section:
`loadingPosts ? spinner : errorPosts ? error : grid` (JS truthiness on
`errorPosts`). -/
def renderPostsSection (s : ViewState) : PostsSection :=
  if s.loadingPosts then .loading "Loading posts..."
  else if jsTruthy s.errorPosts then .failed (jsStr s.errorPosts)
  else .grid (s.posts.map renderPostCard)

/-- The component body after the hooks: the two early returns
(`if (loadingUser) ...`, `if (errorUser) ...`, the latter a JS truthiness
test) and the composed page. -/
def render (s : ViewState) : Render :=
  if s.loadingUser then .loadingUser "Loading user..."
  else if jsTruthy s.errorUser then .errorUser (jsStr s.errorUser)
  else .page (renderProfile s.user) (renderMap s.user) (renderPostsSection s)

/-- The user resource is pending: its loading flag is set. -/
def userPending (s : ViewState) : Prop := s.loadingUser = true

/-- The user resource failed with a message: `errorUser` holds one. -/
def userFailed (s : ViewState) : Prop := s.errorUser ≠ none

/-- The user resource settled successfully (payload in `s.user`). -/
def userSuccess (s : ViewState) : Prop :=
  s.loadingUser = false ∧ s.errorUser = none

/-- The posts resource is pending. -/
def postsPending (s : ViewState) : Prop := s.loadingPosts = true

/-- The posts resource failed with a message. -/
def postsFailed (s : ViewState) : Prop := s.errorPosts ≠ none

/-- The posts resource settled successfully (payload in `s.posts`). -/
def postsSuccess (s : ViewState) : Prop :=
  s.loadingPosts = false ∧ s.errorPosts = none

/-- Exactly one of three alternatives holds. -/
def ExactlyOne (p q r : Prop) : Prop :=
  (p ∧ ¬q ∧ ¬r) ∨ (¬p ∧ q ∧ ¬r) ∨ (¬p ∧ ¬q ∧ r)

/-- The states the component can be in: the initial state, evolved by the
two fetch handlers settling (in any order, any number of interleavings). -/
inductive Reachable : ViewState → Prop where
  | init : Reachable initialState
  | stepUser (o : FetchOutcome (Option User)) {s : ViewState} :
      Reachable s → Reachable (fetchUser o s)
  | stepPosts (o : FetchOutcome (List Post)) {s : ViewState} :
      Reachable s → Reachable (fetchPosts o s)

/-! ### Helper lemmas about the two fetch transitions -/

lemma fetchUser_loadingUser (o : FetchOutcome (Option User)) (s : ViewState) :
    (fetchUser o s).loadingUser = false := by
  cases o with
  | reject t => rfl
  | response status body =>
    cases body <;> cases h : resOk status <;> simp [fetchUser, h]

lemma fetchUser_posts (o : FetchOutcome (Option User)) (s : ViewState) :
    (fetchUser o s).posts = s.posts := by
  cases o with
  | reject t => rfl
  | response status body =>
    cases body <;> cases h : resOk status <;> simp [fetchUser, h]

lemma fetchUser_loadingPosts (o : FetchOutcome (Option User)) (s : ViewState) :
    (fetchUser o s).loadingPosts = s.loadingPosts := by
  cases o with
  | reject t => rfl
  | response status body =>
    cases body <;> cases h : resOk status <;> simp [fetchUser, h]

lemma fetchUser_errorPosts (o : FetchOutcome (Option User)) (s : ViewState) :
    (fetchUser o s).errorPosts = s.errorPosts := by
  cases o with
  | reject t => rfl
  | response status body =>
    cases body <;> cases h : resOk status <;> simp [fetchUser, h]

lemma fetchPosts_loadingPosts (o : FetchOutcome (List Post)) (s : ViewState) :
    (fetchPosts o s).loadingPosts = false := by
  cases o with
  | reject t => rfl
  | response status body =>
    cases body <;> cases h : resOk status <;> simp [fetchPosts, h]

lemma fetchPosts_user (o : FetchOutcome (List Post)) (s : ViewState) :
    (fetchPosts o s).user = s.user := by
  cases o with
  | reject t => rfl
  | response status body =>
    cases body <;> cases h : resOk status <;> simp [fetchPosts, h]

lemma fetchPosts_loadingUser (o : FetchOutcome (List Post)) (s : ViewState) :
    (fetchPosts o s).loadingUser = s.loadingUser := by
  cases o with
  | reject t => rfl
  | response status body =>
    cases body <;> cases h : resOk status <;> simp [fetchPosts, h]

lemma fetchPosts_errorUser (o : FetchOutcome (List Post)) (s : ViewState) :
    (fetchPosts o s).errorUser = s.errorUser := by
  cases o with
  | reject t => rfl
  | response status body =>
    cases body <;> cases h : resOk status <;> simp [fetchPosts, h]

lemma fetchUser_user_of_fails (o : FetchOutcome (Option User)) (s : ViewState)
    (h : outcomeFails o = true) : (fetchUser o s).user = s.user := by
  cases o with
  | reject t => rfl
  | response status body =>
    cases body with
    | ok a =>
      simp [outcomeFails] at h
      simp [fetchUser, h]
    | error t =>
      cases hr : resOk status <;> simp [fetchUser, hr]

lemma fetchPosts_posts_of_fails (o : FetchOutcome (List Post)) (s : ViewState)
    (h : outcomeFails o = true) : (fetchPosts o s).posts = s.posts := by
  cases o with
  | reject t => rfl
  | response status body =>
    cases body with
    | ok a =>
      simp [outcomeFails] at h
      simp [fetchPosts, h]
    | error t =>
      cases hr : resOk status <;> simp [fetchPosts, hr]

lemma fetchUser_fetchPosts_comm (ou : FetchOutcome (Option User))
    (op : FetchOutcome (List Post)) (s : ViewState) :
    fetchUser ou (fetchPosts op s) = fetchPosts op (fetchUser ou s) := by
  cases s
  cases ou with
  | reject tu =>
    cases op with
    | reject tp => rfl
    | response stp bp =>
      cases bp <;> cases h : resOk stp <;> simp [fetchUser, fetchPosts, h]
  | response stu bu =>
    cases op with
    | reject tp =>
      cases bu <;> cases h : resOk stu <;> simp [fetchUser, fetchPosts, h]
    | response stp bp =>
      cases bu <;> cases bp <;> cases h1 : resOk stu <;> cases h2 : resOk stp <;>
        simp [fetchUser, fetchPosts, h1, h2]

/-- The component never has a resource both pending and failed: while a
loading flag is still set, the matching error slot is still empty. -/
def LoadingClean (s : ViewState) : Prop :=
  (s.loadingUser = true → s.errorUser = none) ∧
  (s.loadingPosts = true → s.errorPosts = none)

lemma reachable_loadingClean {s : ViewState} (h : Reachable s) :
    LoadingClean s := by
  induction h with
  | init => exact ⟨fun _ => rfl, fun _ => rfl⟩
  | stepUser o h ih =>
    refine ⟨fun hl => ?_, fun hl => ?_⟩
    · rw [fetchUser_loadingUser] at hl; cases hl
    · rw [fetchUser_loadingPosts] at hl
      rw [fetchUser_errorPosts]
      exact ih.2 hl
  | stepPosts o h ih =>
    refine ⟨fun hl => ?_, fun hl => ?_⟩
    · rw [fetchPosts_loadingUser] at hl
      rw [fetchPosts_errorUser]
      exact ih.1 hl
    · rw [fetchPosts_loadingPosts] at hl; cases hl

lemma exactlyOne_user_of_loadingClean {s : ViewState} (h : LoadingClean s) :
    ExactlyOne (userPending s) (userSuccess s) (userFailed s) := by
  unfold ExactlyOne userPending userSuccess userFailed
  cases hl : s.loadingUser with
  | true => simp [hl, h.1 hl]
  | false =>
    cases he : s.errorUser with
    | none => simp [hl, he]
    | some m => simp [hl, he]

lemma exactlyOne_posts_of_loadingClean {s : ViewState} (h : LoadingClean s) :
    ExactlyOne (postsPending s) (postsSuccess s) (postsFailed s) := by
  unfold ExactlyOne postsPending postsSuccess postsFailed
  cases hl : s.loadingPosts with
  | true => simp [hl, h.2 hl]
  | false =>
    cases he : s.errorPosts with
    | none => simp [hl, he]
    | some m => simp [hl, he]

lemma userRequest_ne_postsRequest (id : String) :
    userRequest id ≠ postsRequest id := by
  intro h
  have h3 := congrArg String.length (congrArg Request.url h)
  rw [userRequest, postsRequest] at h3
  rw [String.length_append, String.length_append] at h3
  have e1 : ("https://jsonplaceholder.typicode.com/users/" : String).length = 43 := rfl
  have e2 : ("https://jsonplaceholder.typicode.com/posts?userId=" : String).length = 50 := rfl
  rw [e1, e2] at h3
  omega

/-! ### The claims -/

/-- C3: for each of the two resources and at every reachable state of the
view, exactly one of pending / success-with-payload / failed-with-message
holds (pending means the loading flag is set, failed means the error slot
holds a message, success means settled with no error, the payload sitting
in `user` / `posts`); and every fetch, whatever its outcome, ends with
that resource's loading flag cleared (the `finally` block). -/
theorem c3_tri_state_invariant :
    (∀ s : ViewState, Reachable s →
      ExactlyOne (userPending s) (userSuccess s) (userFailed s) ∧
      ExactlyOne (postsPending s) (postsSuccess s) (postsFailed s)) ∧
    (∀ (o : FetchOutcome (Option User)) (s : ViewState),
      (fetchUser o s).loadingUser = false) ∧
    (∀ (o : FetchOutcome (List Post)) (s : ViewState),
      (fetchPosts o s).loadingPosts = false) :=
  ⟨fun _ h => ⟨exactlyOne_user_of_loadingClean (reachable_loadingClean h),
      exactlyOne_posts_of_loadingClean (reachable_loadingClean h)⟩,
    fetchUser_loadingUser, fetchPosts_loadingPosts⟩

/-- Witness for C3 at the initial state. -/
theorem c3_tri_state_invariant_witness :
    ExactlyOne (userPending initialState) (userSuccess initialState)
      (userFailed initialState) ∧
    ExactlyOne (postsPending initialState) (postsSuccess initialState)
      (postsFailed initialState) :=
  c3_tri_state_invariant.1 initialState Reachable.init

/-- C6: a non-2xx status makes the resource fail with the fixed message
"Failed to fetch user" (resp. "Failed to fetch posts"), whatever the
response body holds. -/
theorem c6_non2xx_fixed_message :
    ∀ (status : Nat) (s : ViewState) (bu : Except Thrown (Option User))
      (bp : Except Thrown (List Post)), resOk status = false →
      (fetchUser (FetchOutcome.response status bu) s).errorUser
          = some "Failed to fetch user" ∧
      (fetchPosts (FetchOutcome.response status bp) s).errorPosts
          = some "Failed to fetch posts" := by
  intro status s bu bp h
  constructor
  · simp [fetchUser, h]
  · simp [fetchPosts, h]

/-- Witness for C6 at status 404. -/
theorem c6_non2xx_fixed_message_witness :
    resOk 404 = false ∧
    (fetchUser (FetchOutcome.response 404 (Except.ok none)) initialState).errorUser
        = some "Failed to fetch user" ∧
    (fetchPosts (FetchOutcome.response 404 (Except.ok [])) initialState).errorPosts
        = some "Failed to fetch posts" :=
  ⟨by decide,
    c6_non2xx_fixed_message 404 initialState (Except.ok none) (Except.ok []) (by decide)⟩

/-- C2: every thrown failure (rejected fetch, non-2xx, or `json()` throw)
ends in the failed state with the caught message: the `message` of a
thrown `Error` instance, and exactly "An unknown error occurred" for any
thrown value that is not an `Error` instance (so carries no message the
handler reads); that fallback text is also what the view then displays. -/
theorem c2_thrown_failure_message :
    ∀ (s : ViewState) (t : Thrown) (status : Nat) (m : String),
      caughtMessage (Thrown.errorObj m) = m ∧
      caughtMessage Thrown.otherValue = "An unknown error occurred" ∧
      (fetchUser (FetchOutcome.reject t) s).errorUser = some (caughtMessage t) ∧
      (fetchPosts (FetchOutcome.reject t) s).errorPosts = some (caughtMessage t) ∧
      (resOk status = true →
        (fetchUser (FetchOutcome.response status (Except.error t)) s).errorUser
            = some (caughtMessage t) ∧
        (fetchPosts (FetchOutcome.response status (Except.error t)) s).errorPosts
            = some (caughtMessage t)) ∧
      render (fetchUser (FetchOutcome.reject Thrown.otherValue) initialState)
          = Render.errorUser "An unknown error occurred" := by
  intro s t status m
  refine ⟨rfl, rfl, rfl, rfl, fun h => ⟨?_, ?_⟩, by decide⟩
  · simp [fetchUser, h]
  · simp [fetchPosts, h]

/-- Witness for C2 at a 200 response whose body fails to parse with a
non-`Error` throw. -/
theorem c2_thrown_failure_message_witness :
    (fetchUser (FetchOutcome.response 200 (Except.error Thrown.otherValue))
        initialState).errorUser = some "An unknown error occurred" :=
  ((c2_thrown_failure_message initialState Thrown.otherValue 200 "x").2.2.2.2.1
    (by decide)).1

/-- C9: a failing fetch leaves its payload at the previous value — from
the initial state, a user-fetch failure leaves `user` at `null` and a
posts-fetch failure leaves `posts` at `[]` — and it touches nothing but
its own error slot and loading flag (the other resource's three fields
are unchanged). -/
theorem c9_failure_preserves_payload :
    ∀ (ou : FetchOutcome (Option User)) (op : FetchOutcome (List Post))
      (s : ViewState),
      outcomeFails ou = true → outcomeFails op = true →
      (fetchUser ou s).user = s.user ∧
      (fetchUser ou s).posts = s.posts ∧
      (fetchUser ou s).loadingPosts = s.loadingPosts ∧
      (fetchUser ou s).errorPosts = s.errorPosts ∧
      (fetchPosts op s).posts = s.posts ∧
      (fetchPosts op s).user = s.user ∧
      (fetchPosts op s).loadingUser = s.loadingUser ∧
      (fetchPosts op s).errorUser = s.errorUser ∧
      (fetchUser ou initialState).user = none ∧
      (fetchPosts op initialState).posts = [] := by
  intro ou op s hu hp
  exact ⟨fetchUser_user_of_fails ou s hu, fetchUser_posts ou s,
    fetchUser_loadingPosts ou s, fetchUser_errorPosts ou s,
    fetchPosts_posts_of_fails op s hp, fetchPosts_user op s,
    fetchPosts_loadingUser op s, fetchPosts_errorUser op s,
    fetchUser_user_of_fails ou initialState hu,
    fetchPosts_posts_of_fails op initialState hp⟩

/-- Witness for C9: both fetches reject with a non-`Error` value. -/
theorem c9_failure_preserves_payload_witness :
    (fetchUser (FetchOutcome.reject Thrown.otherValue) initialState).user = none ∧
    (fetchPosts (FetchOutcome.reject Thrown.otherValue) initialState).posts = [] := by
  have h := c9_failure_preserves_payload (FetchOutcome.reject Thrown.otherValue)
    (FetchOutcome.reject Thrown.otherValue) initialState rfl rfl
  exact ⟨h.2.2.2.2.2.2.2.2.1, h.2.2.2.2.2.2.2.2.2⟩

/-- C8: a 2xx posts response whose body parses to the empty array settles
the posts resource in the success state (not failed) and the posts
section renders the empty grid — no spinner, no error line. -/
theorem c8_empty_posts_success :
    ∀ (s : ViewState) (status : Nat), resOk status = true → s.errorPosts = none →
      postsSuccess (fetchPosts (FetchOutcome.response status (Except.ok [])) s) ∧
      ¬ postsFailed (fetchPosts (FetchOutcome.response status (Except.ok [])) s) ∧
      renderPostsSection (fetchPosts (FetchOutcome.response status (Except.ok [])) s)
          = PostsSection.grid [] := by
  intro s status hok he
  have h1 : fetchPosts (FetchOutcome.response status (Except.ok [])) s
      = { s with posts := [], loadingPosts := false } := by
    simp [fetchPosts, hok]
  rw [h1]
  refine ⟨⟨rfl, he⟩, ?_, ?_⟩
  · simp [postsFailed, he]
  · simp [renderPostsSection, jsTruthy, he]

/-- Witness for C8 at status 200 from the initial state. -/
theorem c8_empty_posts_success_witness :
    renderPostsSection (fetchPosts (FetchOutcome.response 200 (Except.ok []))
        initialState) = PostsSection.grid [] :=
  (c8_empty_posts_success initialState 200 rfl rfl).2.2

/-- C7: the two fetches are independent — their transitions commute, each
leaves the other resource's three fields untouched, a settled user fetch
leaves the posts section's rendering unchanged (and symmetrically the
posts fetch leaves the user-gated early returns unchanged), and in the
partial-readiness state (user succeeded, posts still pending) the page
renders the profile and map with the posts section showing its own
spinner labeled "Loading posts...". -/
theorem c7_fetch_independence :
    ∀ (ou : FetchOutcome (Option User)) (op : FetchOutcome (List Post))
      (s : ViewState) (u : User),
      fetchUser ou (fetchPosts op s) = fetchPosts op (fetchUser ou s) ∧
      (fetchPosts op s).user = s.user ∧
      (fetchPosts op s).loadingUser = s.loadingUser ∧
      (fetchPosts op s).errorUser = s.errorUser ∧
      (fetchUser ou s).posts = s.posts ∧
      (fetchUser ou s).loadingPosts = s.loadingPosts ∧
      (fetchUser ou s).errorPosts = s.errorPosts ∧
      renderPostsSection (fetchUser ou s) = renderPostsSection s ∧
      render (fetchUser (FetchOutcome.response 200 (Except.ok (some u)))
          initialState)
        = Render.page (renderProfile (some u)) (renderMap (some u))
            (PostsSection.loading "Loading posts...") := by
  intro ou op s u
  refine ⟨fetchUser_fetchPosts_comm ou op s, fetchPosts_user op s,
    fetchPosts_loadingUser op s, fetchPosts_errorUser op s,
    fetchUser_posts ou s, fetchUser_loadingPosts ou s,
    fetchUser_errorPosts ou s, ?_, ?_⟩
  · simp [renderPostsSection, fetchUser_posts, fetchUser_loadingPosts,
      fetchUser_errorPosts]
  · have hok : resOk 200 = true := rfl
    simp [fetchUser, hok, initialState, render, renderPostsSection, jsTruthy]

/-- C5: in the success view the map collaborator renders iff the user is
present and both geo coordinates are non-empty strings; in every other
case (no user, or an empty latitude or longitude — in particular
`geo = { lat: "", lng: "" }`) the map region is the placeholder text
"Map data not available". -/
theorem c5_map_iff_geo_nonempty :
    ∀ u : Option User,
      (renderMap u = MapRegion.userMap ↔
        ∃ x : User, u = some x ∧ x.address.geo.lat ≠ "" ∧ x.address.geo.lng ≠ "") ∧
      (renderMap u ≠ MapRegion.userMap →
        renderMap u = MapRegion.placeholder "Map data not available") ∧
      (∀ x : User, x.address.geo = { lat := "", lng := "" } →
        renderMap (some x) = MapRegion.placeholder "Map data not available") := by
  intro u
  refine ⟨?_, ?_, ?_⟩
  · cases u with
    | none => simp [renderMap, jsTruthy]
    | some x =>
      by_cases hla : x.address.geo.lat = ""
      · simp [renderMap, jsTruthy, hla]
      · by_cases hln : x.address.geo.lng = ""
        · simp [renderMap, jsTruthy, hla, hln]
        · simp [renderMap, jsTruthy, hla, hln]
  · intro hne
    by_cases hc : (jsTruthy (u.map fun x => x.address.geo.lat) &&
        jsTruthy (u.map fun x => x.address.geo.lng)) = true
    · exact absurd (by simp [renderMap, hc]) hne
    · simp [renderMap, hc]
  · intro x hg
    simp [renderMap, jsTruthy, hg]

/-- Witness for C5 at a user with both coordinates non-empty. -/
theorem c5_map_iff_geo_nonempty_witness :
    renderMap (some
      { id := 1, name := "Leanne Graham", username := "Bret",
        email := "Sincere@april.biz", phone := "1-770-736-8031 x56442",
        website := "hildegard.org",
        address :=
          { street := "Kulas Light", suite := "Apt. 556",
            city := "Gwenborough", zipcode := "92998-3874",
            geo := { lat := "-37.3159", lng := "81.1496" } } })
      = MapRegion.userMap :=
  ((c5_map_iff_geo_nonempty _).1).mpr ⟨_, rfl, by decide, by decide⟩

/-- C10: a user fetch that settles successfully with a `null` payload
still renders the whole success branch: every optional-chained field
access renders as empty text (the two template-literal link targets
interpolate the short-circuited `undefined`, and the comma separators of
the address line remain), the map region is the "Map data not available"
placeholder, and the renderer — a total function — raises nothing. -/
theorem c10_null_user_renders_totally :
    ∀ (s : ViewState) (status : Nat), resOk status = true → s.errorUser = none →
      render (fetchUser (FetchOutcome.response status (Except.ok none)) s)
          = Render.page (renderProfile none) (renderMap none)
              (renderPostsSection
                (fetchUser (FetchOutcome.response status (Except.ok none)) s)) ∧
      renderProfile none =
        { name := "", username := "", email := "",
          emailHref := "mailto:undefined", phone := "", website := "",
          websiteHref := "http://undefined", addressLine := ", , , " } ∧
      renderMap none = MapRegion.placeholder "Map data not available" := by
  intro s status hok he
  have h1 : fetchUser (FetchOutcome.response status (Except.ok none)) s
      = { s with user := none, loadingUser := false } := by
    simp [fetchUser, hok]
  refine ⟨?_, by decide, rfl⟩
  rw [h1]
  simp [render, jsTruthy, he]

/-- Witness for C10 at a 200 response from the initial state. -/
theorem c10_null_user_renders_totally_witness :
    render (fetchUser (FetchOutcome.response 200 (Except.ok none)) initialState)
        = Render.page (renderProfile none) (renderMap none)
            (renderPostsSection
              (fetchUser (FetchOutcome.response 200 (Except.ok none))
                initialState)) :=
  (c10_null_user_renders_totally initialState 200 rfl rfl).1

/-- C1 counterexample: after a user fetch that fails with a thrown `Error`
whose `message` is the empty string, the user resource is failed
(`errorUser` holds a message), yet `if (errorUser)` is falsy, so the full
page body — profile, map region, and posts section — renders instead of
only the error message. -/
theorem c1_counterexample :
    userFailed (fetchUser (FetchOutcome.reject (Thrown.errorObj "")) initialState) ∧
    render (fetchUser (FetchOutcome.reject (Thrown.errorObj "")) initialState)
        = Render.page (renderProfile none) (renderMap none)
            (PostsSection.loading "Loading posts...") := by
  exact ⟨fun h => Option.noConfusion h, rfl⟩

/-- C1 (amended): while the user fetch is pending only the full-page
spinner labeled "Loading user..." renders; if the user fetch failed with a
non-empty message, only that error message renders; and a posts-fetch
failure with a non-empty message suppresses only the posts section —
profile and map still render, the posts section showing the message. -/
theorem c1_render_gating_amended :
    ∀ s : ViewState,
      (s.loadingUser = true → render s = Render.loadingUser "Loading user...") ∧
      (∀ m : String, s.loadingUser = false → s.errorUser = some m → m ≠ "" →
        render s = Render.errorUser m) ∧
      (∀ m : String, s.loadingUser = false → s.errorUser = none →
        s.loadingPosts = false → s.errorPosts = some m → m ≠ "" →
        render s = Render.page (renderProfile s.user) (renderMap s.user)
          (PostsSection.failed m)) := by
  intro s
  refine ⟨fun hl => ?_, fun m hl he hm => ?_, fun m hl he hlp hep hm => ?_⟩
  · simp [render, hl]
  · simp [render, hl, he, jsTruthy, jsStr, hm]
  · simp [render, renderPostsSection, hl, he, hlp, hep, jsTruthy, jsStr, hm]

/-- Witness for C1 (amended) at the initial, still-pending state. -/
theorem c1_render_gating_amended_witness :
    render initialState = Render.loadingUser "Loading user..." :=
  (c1_render_gating_amended initialState).1 rfl

/-- C4 counterexample: at the identifier "" (the one falsy string) the
mount effect's `if (!id) return;` guard fires and no request at all is
issued — not exactly one per endpoint. -/
theorem c4_counterexample :
    effectRequests "" = [] ∧
    (effectRequests "").count (userRequest "") = 0 ∧
    (effectRequests "").count (postsRequest "") = 0 := by
  exact ⟨rfl, rfl, rfl⟩

/-- C4 (amended): for any non-empty identifier one run of the mount
effect issues exactly one request to the user endpoint and exactly one to
the posts endpoint, and nothing else. -/
theorem c4_one_request_each_amended :
    ∀ id : String, id ≠ "" →
      effectRequests id = [userRequest id, postsRequest id] ∧
      (effectRequests id).count (userRequest id) = 1 ∧
      (effectRequests id).count (postsRequest id) = 1 := by
  intro id hid
  have h1 : effectRequests id = [userRequest id, postsRequest id] := by
    simp [effectRequests, hid]
  refine ⟨h1, ?_, ?_⟩ <;> rw [h1]
  · simp [List.count_cons, List.count_nil, userRequest_ne_postsRequest id]
  · simp [List.count_cons, List.count_nil,
      (userRequest_ne_postsRequest id).symm]

/-- Witness for C4 (amended) at the identifier "1". -/
theorem c4_one_request_each_amended_witness :
    effectRequests "1" = [userRequest "1", postsRequest "1"] :=
  (c4_one_request_each_amended "1" (by decide)).1
